import Mathlib

/-!
Verification development for `dbt_query_tool.py`, a command-line utility that
loads a dbt `catalog.json`, looks up table metadata, routes a natural-language
question through stubbed LLM backends, and prints sample data / schema queries
executed through an optional embedded DuckDB engine.

The embedding below models the catalog as a JSON value with Python semantics:
dictionary access raises `KeyError`, method calls on values of the wrong shape
raise a type-style error, and truthiness follows Python's rules (`None`, `0`,
`""`, `[]`, `{}`, `False` are falsy).  Fallible Python code is embedded as
`Except PyError`.  The DuckDB engine is abstracted as a function from query
strings to an execution outcome (a result string or a raised exception); the
connection lifecycle of each sampling call is instrumented as a list of
session events (`opened` / `closed`) so that the acquire/release discipline of
the source can be stated and checked.
-/

namespace DbtQueryTool

/-- JSON values as produced by `json.load`.  Numbers are modelled as integers
(the catalog metadata contains no fractional numbers relevant to any claim).
Objects are association lists in insertion order, matching Python's
dict iteration order. -/
inductive Json where
  | null : Json
  | bool (b : Bool) : Json
  | num (n : Int) : Json
  | str (s : String) : Json
  | arr (xs : List Json) : Json
  | obj (kvs : List (String × Json)) : Json

/-- Python truthiness of a JSON value: `None`, `False`, `0`, `""`, `[]` and
`\x7b\x7d` are falsy, everything else is truthy. -/
def Json.truthy : Json → Bool
  | .null => false
  | .bool b => b
  | .num n => n != 0
  | .str s => s != ""
  | .arr xs => !xs.isEmpty
  | .obj kvs => !kvs.isEmpty

/-- Errors the Python code can raise while traversing the catalog:
`keyError k` models `KeyError(k)` from `d[k]` on a dict missing `k`;
`typeError` models `TypeError`/`AttributeError` from using a value of the
wrong shape (subscripting a non-dict, calling `.values()`/`.items()`/`.lower()`
on a value that lacks the method). -/
inductive PyError where
  | keyError (k : String) : PyError
  | typeError (ctx : String) : PyError
deriving DecidableEq, Repr

/-- Python `d[k]`: on a dict, return the value or raise `KeyError(k)`;
on any other value, raise a type-style error. -/
def Json.getItem : Json → String → Except PyError Json
  | .obj kvs, k =>
    match kvs.lookup k with
    | some v => .ok v
    | none => .error (.keyError k)
  | _, k => .error (.typeError k)

/-- Python `d.values()`: the dict's values in iteration order, or a
type-style error on a non-dict. -/
def Json.values : Json → Except PyError (List Json)
  | .obj kvs => .ok (kvs.map Prod.snd)
  | _ => .error (.typeError "values")

/-- Python `d.items()`: the dict's key/value pairs in iteration order, or a
type-style error on a non-dict. -/
def Json.items : Json → Except PyError (List (String × Json))
  | .obj kvs => .ok kvs
  | _ => .error (.typeError "items")

/-- Python `d.get(k, default)`: total on dicts, type-style error otherwise. -/
def Json.getDefault : Json → String → Json → Except PyError Json
  | .obj kvs, k, d => .ok ((kvs.lookup k).getD d)
  | _, _, _ => .error (.typeError "get")

/-- ASCII lower-casing of one character, as `str.lower()` does: the letters
`A`-`Z` (codepoints 65-90) map 32 codepoints up, everything else is fixed. -/
def lowerChar (c : Char) : Char :=
  if 65 ≤ c.toNat ∧ c.toNat ≤ 90 then Char.ofNat (c.toNat + 32) else c

/-- Python `s.lower()` on a string (ASCII range, which covers every string
the tool compares). -/
def pyLower (s : String) : String := ⟨s.data.map lowerChar⟩

/-- Python `v.lower()`: defined on strings, type-style error otherwise. -/
def Json.lowerStr : Json → Except PyError String
  | .str s => .ok (pyLower s)
  | _ => .error (.typeError "lower")

mutual

/-- Python `repr` of a JSON value, as used by `print` on non-string
arguments (e.g. `print("Tables in catalog:", table_names)`). -/
def Json.pyRepr : Json → String
  | .null => "None"
  | .bool b => if b then "True" else "False"
  | .num n => toString n
  | .str s => "'" ++ s ++ "'"
  | .arr xs => "[" ++ pyReprElems xs ++ "]"
  | .obj kvs => "\x7b" ++ pyReprEntries kvs ++ "\x7d"

/-- Comma-separated `repr`s of the elements of a Python list. -/
def pyReprElems : List Json → String
  | [] => ""
  | [x] => Json.pyRepr x
  | x :: y :: rest => Json.pyRepr x ++ ", " ++ pyReprElems (y :: rest)

/-- Comma-separated `repr`s of the entries of a Python dict. -/
def pyReprEntries : List (String × Json) → String
  | [] => ""
  | [(k, v)] => "'" ++ k ++ "': " ++ Json.pyRepr v
  | (k, v) :: e :: rest => "'" ++ k ++ "': " ++ Json.pyRepr v ++ ", " ++ pyReprEntries (e :: rest)

end

/-- Python `str` of a JSON value, as used by f-string interpolation:
strings interpolate as themselves, other values as their `repr`-style text. -/
def Json.pyStr : Json → String
  | .str s => s
  | j => j.pyRepr

/-- Truthiness of the optional `--api-key` argument: absent (`None`) and the
empty string are both falsy in `if not api_key`. -/
def optTruthy : Option String → Bool
  | none => false
  | some s => s != ""

/-- Abstract outcome of handing a query string to the embedded DuckDB engine:
either a formatted result string (covering `execute`, `fetchdf` and the
to-string rendering) or a raised exception with message `e`. -/
inductive ExecOutcome where
  | ok (s : String) : ExecOutcome
  | raise (e : String) : ExecOutcome

/-- Connection lifecycle events of one sampling call:
`opened` records `duckdb.connect(':memory:')`, `closed` records
`conn.close()`. -/
inductive SessEvent where
  | opened : SessEvent
  | closed : SessEvent
deriving DecidableEq, Repr

/-- Abstract result of Python's `open` + `json.load` on the catalog path:
the file is missing, its content is invalid JSON, some other I/O error with
message `msg` occurred, or the parsed JSON document. -/
inductive FileOutcome where
  | notFound : FileOutcome
  | invalidJson : FileOutcome
  | otherError (msg : String) : FileOutcome
  | content (j : Json) : FileOutcome

/-- Embeds `load_catalog` (dbt_query_tool.py lines 14-36): returns the parsed
document, or `none` plus the printed error message for the three `except`
branches (`FileNotFoundError`, `json.JSONDecodeError`, generic `Exception`). -/
def load_catalog (catalog_path : String) (fo : FileOutcome) : Option Json × List String :=
  match fo with
  | .content j => (some j, [])
  | .notFound => (none, ["Error: catalog.json file not found at " ++ catalog_path])
  | .invalidJson => (none, ["Error: Invalid JSON in catalog.json at " ++ catalog_path])
  | .otherError e => (none, ["Error loading catalog.json: " ++ e])

/-- Embeds the loop body of `get_table_info` (lines 52-55): scan the node
values in order, raising if a node lacks a string `name`, and return the first
node whose lowered name equals `target` (the already-lowered query). -/
def find_node (target : String) : List Json → Except PyError (Option Json)
  | [] => .ok none
  | node :: rest =>
    match node.getItem "name" with
    | .error e => .error e
    | .ok nm =>
      match nm.lowerStr with
      | .error e => .error e
      | .ok low => if low = target then .ok (some node) else find_node target rest

/-- Embeds `get_table_info` (lines 38-55): `None` on a falsy catalog,
otherwise a case-insensitive first-match scan of `catalog_data['nodes'].values()`. -/
def get_table_info (catalog_data : Json) (table_name : String) : Except PyError (Option Json) :=
  if catalog_data.truthy = false then .ok none
  else
    match catalog_data.getItem "nodes" with
    | .error e => .error e
    | .ok nodes =>
      match nodes.values with
      | .error e => .error e
      | .ok vs => find_node (pyLower table_name) vs

/-- Embeds the tuple-membership test `node['resource_type'] in ('model',
'seed', 'snapshot', 'table', 'view')` (line 71): only a string value can
compare equal to one of the five string literals. -/
def resource_type_matches : Json → Bool
  | .str s => ["model", "seed", "snapshot", "table", "view"].contains s
  | _ => false

/-- Embeds the loop body of `get_table_names` (lines 70-72): for each node,
fetch `resource_type` (raising on a missing key), and when it matches, append
`node['name']` (raising on a missing key). -/
def collect_table_names : List Json → Except PyError (List Json)
  | [] => .ok []
  | node :: rest =>
    match node.getItem "resource_type" with
    | .error e => .error e
    | .ok rt =>
      if resource_type_matches rt then
        match node.getItem "name" with
        | .error e => .error e
        | .ok nm =>
          match collect_table_names rest with
          | .error e => .error e
          | .ok tail => .ok (nm :: tail)
      else collect_table_names rest

/-- Embeds `get_table_names` (lines 57-73): `[]` on a falsy catalog, otherwise
the names of the nodes whose `resource_type` is one of the five queryable
kinds, in catalog iteration order. -/
def get_table_names (catalog_data : Json) : Except PyError (List Json) :=
  if catalog_data.truthy = false then .ok []
  else
    match catalog_data.getItem "nodes" with
    | .error e => .error e
    | .ok nodes =>
      match nodes.values with
      | .error e => .error e
      | .ok vs => collect_table_names vs

/-- Embeds `generate_duckdb_query` (lines 75-89): `None` when the DuckDB
dependency is absent, otherwise the fixed template over the table name; the
`catalog_path` parameter is never used in the generated query. -/
def generate_duckdb_query (duckdb_available : Bool) (table_name catalog_path : String) :
    Option String :=
  if duckdb_available = false then none
  else some ("SELECT * FROM read_parquet('" ++ table_name ++ "/*.parquet') LIMIT 5")

/-- Embeds `get_sample_data_duckdb` (lines 91-119).  `ex` abstracts the engine
(`conn.execute(query).fetchdf()` plus `result.head().to_string()`).  The second
component is the session-event trace: `connect` happens first inside the
`try`; on success `conn.close()` runs before the return, but when execution
raises, control jumps to the `except` branch and `conn.close()` is skipped. -/
def get_sample_data_duckdb (duckdb_available : Bool) (ex : String → ExecOutcome)
    (table_name catalog_path : String) : String × List SessEvent :=
  if duckdb_available = false then
    ("DuckDB is not available. Please install it to use this feature.", [])
  else
    match generate_duckdb_query duckdb_available table_name catalog_path with
    | none => ("DuckDB query generation failed.", [])
    | some query =>
      match ex query with
      | .ok s => (s, [.opened, .closed])
      | .raise e => ("Error retrieving sample data with DuckDB: " ++ e, [.opened])

/-- Embeds `get_table_schema_duckdb` (lines 121-144): same shape as the sample
call but the executed text is `DESCRIBE` prefixed to the generated query, and
the error prefix differs.  The session trace has the same asymmetry: `close`
runs only on the success path. -/
def get_table_schema_duckdb (duckdb_available : Bool) (ex : String → ExecOutcome)
    (table_name catalog_path : String) : String × List SessEvent :=
  if duckdb_available = false then
    ("DuckDB is not available. Please install it to use this feature.", [])
  else
    match generate_duckdb_query duckdb_available table_name catalog_path with
    | none => ("DuckDB query generation failed.", [])
    | some query =>
      match ex ("DESCRIBE " ++ query) with
      | .ok s => (s, [.opened, .closed])
      | .raise e => ("Error retrieving table schema with DuckDB: " ++ e, [.opened])

/-- Parsed command-line arguments of `main` (lines 150-163): the joined-word
question, the required catalog path, the `--llm` choice (argparse restricts it
to openai/ollama/debug), the optional API key, and the required data path. -/
structure Args where
  question : List String
  catalog : String
  llm : String
  api_key : Option String
  data_path : String

/-- Embeds the LLM-dispatch branch of `main` (lines 173-194): an `Except`
error is an early `sys.exit(1)` with the lines printed before it; success
carries the lines printed inside the branch, the hardcoded `llm_response`,
and the fixed `related_tables` list. -/
def llm_route (llm_choice : String) (api_key : Option String) (question : String)
    (table_names : List Json) :
    Except (Nat × List String) (List String × String × List String) :=
  if llm_choice = "openai" then
    if optTruthy api_key = false then
      .error (1, ["Error: --api-key is required when using OpenAI."])
    else
      .ok (["Calling OpenAI with question: " ++ question,
            "Tables in catalog: " ++ (Json.arr table_names).pyRepr],
           "I think the relevant tables are customers, orders, and products.",
           ["customers", "orders", "products"])
  else if llm_choice = "ollama" then
    .ok (["Calling Ollama with question: " ++ question,
          "Tables in catalog: " ++ (Json.arr table_names).pyRepr],
         "Ollama says the relevant tables are:  customers, orders, and products.",
         ["customers", "orders", "products"])
  else if llm_choice = "debug" then
    .ok (["Debug mode:  No LLM call."],
         "Debug response:  The relevant tables are: customers, orders, and products.",
         ["customers", "orders", "products"])
  else
    .error (1, ["Error: Invalid LLM choice.  Should not have gotten here."])

/-- Embeds the column-printing loop of `main` (lines 204-205): one output
line per column, raising `KeyError('dtype')` on a column missing `dtype`. -/
def print_columns : List (String × Json) → Except PyError (List String)
  | [] => .ok []
  | (column_name, column_info) :: rest =>
    match column_info.getItem "dtype" with
    | .error e => .error e
    | .ok dt =>
      match column_info.getDefault "description" (.str "No description.") with
      | .error e => .error e
      | .ok desc =>
        match print_columns rest with
        | .error e => .error e
        | .ok tail =>
          .ok (("    " ++ column_name ++ ": " ++ dt.pyStr ++ " - " ++ desc.pyStr) :: tail)

/-- Embeds one iteration of the related-table loop of `main` (lines 198-218):
look up the node, print description/columns for a truthy node, then the
sample-data and schema blocks (each printed only when the returned string is
truthy, i.e. non-empty), or the not-found notice otherwise. -/
def process_table (duck : Bool) (ex : String → ExecOutcome) (catalog_data : Json)
    (data_path table_name : String) : Except PyError (List String) :=
  match get_table_info catalog_data table_name with
  | .error e => .error e
  | .ok info =>
    match info with
    | none => .ok ["Table '" ++ table_name ++ "' not found in catalog."]
    | some table_info =>
      if table_info.truthy = false then
        .ok ["Table '" ++ table_name ++ "' not found in catalog."]
      else
        match table_info.getDefault "description" (.str "No description available.") with
        | .error e => .error e
        | .ok desc =>
          match table_info.getItem "columns" with
          | .error e => .error e
          | .ok columns =>
            match columns.items with
            | .error e => .error e
            | .ok colItems =>
              match print_columns colItems with
              | .error e => .error e
              | .ok colLines =>
                let sample := (get_sample_data_duckdb duck ex table_name data_path).1
                let schema := (get_table_schema_duckdb duck ex table_name data_path).1
                .ok (["\nTable: " ++ table_name,
                      "  Description: " ++ desc.pyStr,
                      "  Columns:"] ++ colLines
                     ++ (if sample = "" then [] else ["\n  Sample Data (DuckDB):", sample])
                     ++ (if schema = "" then [] else ["\n  Table Schema (DuckDB):", schema]))

/-- Embeds the whole related-table loop of `main` (lines 198-218), in order. -/
def process_tables (duck : Bool) (ex : String → ExecOutcome) (catalog_data : Json)
    (data_path : String) : List String → Except PyError (List String)
  | [] => .ok []
  | t :: ts =>
    match process_table duck ex catalog_data data_path t with
    | .error e => .error e
    | .ok out =>
      match process_tables duck ex catalog_data data_path ts with
      | .error e => .error e
      | .ok rest => .ok (out ++ rest)

/-- Embeds the query-advice branch of `main` (lines 221-233): the lines
printed for each backend choice. -/
def query_advice_lines (llm_choice : String) : List String :=
  if llm_choice = "openai" then
    ["Calling OpenAI for query advice...",
     "Here's a possible query using the tables:  SELECT c.name, o.order_date FROM customers c JOIN orders o ON c.customer_id = o.customer_id"]
  else if llm_choice = "ollama" then
    ["Calling Ollama for query advice...",
     "Ollama suggests this query: SELECT c.name, o.order_date FROM customers c JOIN orders o ON c.customer_id = o.customer_id"]
  else if llm_choice = "debug" then
    ["Debug:  Try this query: SELECT c.name, o.order_date FROM customers c JOIN orders o ON c.customer_id = o.customer_id"]
  else
    ["Should not have gotten here."]

/-- Embeds `main` (lines 146-235).  The result is `(exit code, printed
lines)`; an `Except.error` is an uncaught Python exception escaping `main`.
`sys.exit(1)` after a failed load, a falsy document, or a missing OpenAI key
is the early `.ok (1, _)`; a run reaching the final `print("\nDone.")`
returns normally, i.e. exit code 0. -/
def main (duck : Bool) (ex : String → ExecOutcome) (fo : FileOutcome) (args : Args) :
    Except PyError (Nat × List String) :=
  let question := String.intercalate " " args.question
  match load_catalog args.catalog fo with
  | (none, out) => .ok (1, out)
  | (some catalog_data, out) =>
    if catalog_data.truthy = false then .ok (1, out)
    else
      match get_table_names catalog_data with
      | .error e => .error e
      | .ok table_names =>
        match llm_route args.llm args.api_key question table_names with
        | .error r => .ok (r.1, out ++ r.2)
        | .ok (routePrints, llm_response, related_tables) =>
          match process_tables duck ex catalog_data args.data_path related_tables with
          | .error e => .error e
          | .ok tableOut =>
            .ok (0, out ++ routePrints ++ [llm_response] ++ tableOut
                    ++ query_advice_lines args.llm ++ ["\nDone."])

/-- True when `(e : Except PyError α)` is a success. -/
def isOkE {α : Type} : Except PyError α → Bool
  | .ok _ => true
  | .error _ => false

/-- A node is well formed for `get_table_names` when both the
`resource_type` and the `name` keys are present. -/
def nodeWF (n : Json) : Bool :=
  isOkE (n.getItem "resource_type") && isOkE (n.getItem "name")

/-- A node is well formed for `get_table_info` when its `name` key is
present and holds a string. -/
def nodeNameWF (n : Json) : Bool :=
  match n.getItem "name" with
  | .ok (.str _) => true
  | _ => false

/-- Modelled from the spec's words, for refinement against
`get_table_names`: filter the node collection to the nodes whose
`resource_type` is one of model/seed/snapshot/table/view, preserving
iteration order, and take their names. -/
def listQueryableTablesSpec (nodeVals : List Json) : List Json :=
  nodeVals.filterMap (fun n =>
    match n.getItem "resource_type" with
    | .ok rt =>
      if resource_type_matches rt then
        some (match n.getItem "name" with | .ok nm => nm | .error _ => Json.null)
      else none
    | .error _ => none)

/-- Modelled from the spec's words, for refinement against `get_table_info`:
the first node, in iteration order, whose `name` matches the query
case-insensitively; `none` when no node matches. -/
def findTableSpec (nodeVals : List Json) (query : String) : Option Json :=
  nodeVals.find? (fun n =>
    match n.getItem "name" with
    | .ok (.str s) => pyLower s == pyLower query
    | _ => false)

/-- Column dictionary of the example `Customers` node. -/
def custColumns : Json :=
  .obj [("customer_id", .obj [("dtype", .str "INTEGER")])]

/-- Example catalog node for a model named `Customers` (mixed case, to
exercise case-insensitive lookup). -/
def custNode : Json :=
  .obj [("name", .str "Customers"), ("resource_type", .str "model"),
        ("description", .str "Customer table"), ("columns", custColumns)]

/-- Example catalog node of resource type `source`, which must never be
listed as queryable. -/
def sourceNode : Json :=
  .obj [("name", .str "raw_events"), ("resource_type", .str "source"),
        ("columns", .obj [])]

/-- Node entries of the example catalog. -/
def sampleNodes : List (String × Json) :=
  [("model.demo.customers", custNode), ("source.demo.raw_events", sourceNode)]

/-- Example catalog document with one model and one source node. -/
def sampleCatalog : Json :=
  .obj [("nodes", .obj sampleNodes)]

/-- Truthy catalog document that has no `nodes` key at all. -/
def noNodesCatalog : Json :=
  .obj [("metadata", .str "dbt")]

/-- Catalog whose single node lacks the `name` key. -/
def namelessNodeCatalog : Json :=
  .obj [("nodes", .obj [("n1", .obj [("resource_type", .str "model")])])]

/-- Catalog whose single node lacks the `resource_type` key. -/
def untypedNodeCatalog : Json :=
  .obj [("nodes", .obj [("n1", .obj [("name", .str "t")])])]

/-- Engine stand-in whose every query succeeds with a fixed dataframe
rendering. -/
def okExec : String → ExecOutcome := fun _ => .ok "   col\n0    1"

/-- Engine stand-in whose every query raises. -/
def failExec : String → ExecOutcome := fun _ => .raise "IO Error"

/-- Example argument vector using the debug backend. -/
def debugArgs : Args :=
  ⟨["show", "me", "customers"], "catalog.json", "debug", none, "data"⟩

/-- Example argument vector selecting OpenAI without an API key. -/
def openaiArgsNoKey : Args :=
  ⟨["show", "me", "customers"], "catalog.json", "openai", none, "data"⟩

theorem getItem_obj_ok {kvs : List (String × Json)} {k : String} {v : Json}
    (h : (Json.obj kvs).getItem k = .ok v) : kvs.lookup k = some v := by
  simp only [Json.getItem] at h
  cases hl : kvs.lookup k with
  | none => rw [hl] at h; cases h
  | some w => rw [hl] at h; cases h; rfl

theorem truthy_of_lookup {kvs : List (String × Json)} {k : String} {v : Json}
    (h : kvs.lookup k = some v) : (Json.obj kvs).truthy = true := by
  cases kvs with
  | nil => simp [List.lookup] at h
  | cons a l => rfl

/-- C1: `generate_duckdb_query` returns `None` exactly when DuckDB is absent;
otherwise it returns the fixed `read_parquet` template over the table name
(reading `<tableName>/*.parquet`, `LIMIT 5`), and the query never depends on
the supplied path argument, so any two paths produce identical queries. -/
theorem generate_duckdb_query_spec :
    (∀ t p : String, generate_duckdb_query false t p = none) ∧
    (∀ t p : String, generate_duckdb_query true t p =
        some ("SELECT * FROM read_parquet('" ++ t ++ "/*.parquet') LIMIT 5")) ∧
    (∀ (a : Bool) (t p₁ p₂ : String),
        generate_duckdb_query a t p₁ = generate_duckdb_query a t p₂) :=
  ⟨fun _ _ => rfl, fun _ _ => rfl, fun a _ _ _ => by cases a <;> rfl⟩

/-- C4: each catalog-load failure (missing file, invalid JSON, other I/O
error) makes `main` print the corresponding error message and terminate with
exit code 1, with nothing else executed. -/
theorem load_failure_exits_nonzero :
    (∀ (duck : Bool) (ex : String → ExecOutcome) (args : Args),
        main duck ex .notFound args =
          .ok (1, ["Error: catalog.json file not found at " ++ args.catalog])) ∧
    (∀ (duck : Bool) (ex : String → ExecOutcome) (args : Args),
        main duck ex .invalidJson args =
          .ok (1, ["Error: Invalid JSON in catalog.json at " ++ args.catalog])) ∧
    (∀ (duck : Bool) (ex : String → ExecOutcome) (args : Args) (e : String),
        main duck ex (.otherError e) args =
          .ok (1, ["Error loading catalog.json: " ++ e])) :=
  ⟨fun _ _ _ => rfl, fun _ _ _ => rfl, fun _ _ _ _ => rfl⟩

/-- C9: when the catalog file parses to a falsy JSON document (empty object,
empty array, null, 0, false, empty string), `main` exits with code 1 exactly
as for a load failure, because it tests the loaded document for truthiness. -/
theorem falsy_document_exits_one :
    ∀ (duck : Bool) (ex : String → ExecOutcome) (args : Args) (j : Json),
      j.truthy = false → main duck ex (.content j) args = .ok (1, []) := by
  intro duck ex args j h
  simp [main, load_catalog, h]

/-- Witness for C9: the empty JSON object loads successfully yet the run
terminates with exit code 1. -/
theorem falsy_document_exits_one_witness :
    main false okExec (.content (Json.obj [])) debugArgs = .ok (1, []) :=
  falsy_document_exits_one false okExec debugArgs (Json.obj []) rfl

theorem collect_table_names_eq_spec :
    ∀ vs : List Json, (∀ n ∈ vs, nodeWF n = true) →
      collect_table_names vs = .ok (listQueryableTablesSpec vs) := by
  intro vs
  induction vs with
  | nil => intro _; rfl
  | cons n rest ih =>
    intro h
    have hn : nodeWF n = true := h n (List.mem_cons_self _ _)
    have hrec := ih (fun m hm => h m (List.mem_cons_of_mem _ hm))
    unfold nodeWF at hn
    cases hrt : n.getItem "resource_type" with
    | error e => rw [hrt] at hn; simp [isOkE] at hn
    | ok rt =>
      cases hnm : n.getItem "name" with
      | error e => rw [hrt, hnm] at hn; simp [isOkE] at hn
      | ok nm =>
        by_cases hm : resource_type_matches rt = true
        · simp [collect_table_names, listQueryableTablesSpec, List.filterMap_cons,
                hrt, hnm, hm, hrec]
        · simp [collect_table_names, listQueryableTablesSpec, List.filterMap_cons,
                hrt, hnm, hm, hrec]

theorem find_node_eq_spec :
    ∀ (q : String) (vs : List Json), (∀ n ∈ vs, nodeNameWF n = true) →
      find_node (pyLower q) vs = .ok (findTableSpec vs q) := by
  intro q vs
  induction vs with
  | nil => intro _; rfl
  | cons n rest ih =>
    intro h
    have hn : nodeNameWF n = true := h n (List.mem_cons_self _ _)
    have hrec := ih (fun m hm => h m (List.mem_cons_of_mem _ hm))
    unfold nodeNameWF at hn
    cases hnm : n.getItem "name" with
    | error e => rw [hnm] at hn; simp at hn
    | ok nm =>
      rw [hnm] at hn
      cases nm with
      | str s =>
        by_cases he : pyLower s = pyLower q
        · simp [find_node, findTableSpec, hnm, Json.lowerStr, he]
        · simp [find_node, findTableSpec, hnm, Json.lowerStr, he, hrec,
                findTableSpec]
      | null => simp at hn
      | bool b => simp at hn
      | num m => simp at hn
      | arr xs => simp at hn
      | obj kvs => simp at hn

/-- C2: `get_table_names` on a falsy (absent/null/empty) catalog returns the
empty list, and on a well-formed catalog returns exactly the names of the
nodes whose `resource_type` is one of model/seed/snapshot/table/view, in
catalog iteration order, excluding every other node. -/
theorem get_table_names_correct :
    (∀ cat : Json, cat.truthy = false → get_table_names cat = .ok []) ∧
    (∀ kvs nodekvs : List (String × Json),
       (Json.obj kvs).getItem "nodes" = .ok (.obj nodekvs) →
       (∀ p ∈ nodekvs, nodeWF p.2 = true) →
       get_table_names (.obj kvs) =
         .ok (listQueryableTablesSpec (nodekvs.map Prod.snd))) := by
  constructor
  · intro cat h
    simp [get_table_names, h]
  · intro kvs nodekvs h hwf
    have hl := getItem_obj_ok h
    have ht := truthy_of_lookup hl
    have hcol := collect_table_names_eq_spec (nodekvs.map Prod.snd)
      (fun n hn => by
        obtain ⟨p, hp, hpe⟩ := List.mem_map.mp hn
        exact hpe ▸ hwf p hp)
    simp [get_table_names, ht, h, Json.values, hcol]

/-- Witness for C2: on the sample catalog the model node is listed and the
source node is excluded. -/
theorem get_table_names_correct_witness :
    get_table_names sampleCatalog =
      .ok (listQueryableTablesSpec (sampleNodes.map Prod.snd)) ∧
    listQueryableTablesSpec (sampleNodes.map Prod.snd) = [Json.str "Customers"] :=
  ⟨get_table_names_correct.2 [("nodes", .obj sampleNodes)] sampleNodes rfl (by decide), rfl⟩

/-- C3: `get_table_info` returns `None` on a falsy (absent/null/empty)
catalog without raising; on a catalog whose nodes all carry string names it
returns the first node, in iteration order, whose name matches the query
case-insensitively (and `None` when no node matches); and its result depends
only on the lower-cased query, so lookups differing only in case agree. -/
theorem get_table_info_correct :
    (∀ (cat : Json) (q : String), cat.truthy = false →
        get_table_info cat q = .ok none) ∧
    (∀ (kvs nodekvs : List (String × Json)) (q : String),
        (Json.obj kvs).getItem "nodes" = .ok (.obj nodekvs) →
        (∀ p ∈ nodekvs, nodeNameWF p.2 = true) →
        get_table_info (.obj kvs) q =
          .ok (findTableSpec (nodekvs.map Prod.snd) q)) ∧
    (∀ (cat : Json) (q₁ q₂ : String), pyLower q₁ = pyLower q₂ →
        get_table_info cat q₁ = get_table_info cat q₂) := by
  refine ⟨?_, ?_, ?_⟩
  · intro cat q h
    simp [get_table_info, h]
  · intro kvs nodekvs q h hwf
    have hl := getItem_obj_ok h
    have ht := truthy_of_lookup hl
    have hfind := find_node_eq_spec q (nodekvs.map Prod.snd)
      (fun n hn => by
        obtain ⟨p, hp, hpe⟩ := List.mem_map.mp hn
        exact hpe ▸ hwf p hp)
    simp [get_table_info, ht, h, Json.values, hfind]
  · intro cat q₁ q₂ h
    unfold get_table_info
    rw [h]

/-- Witness for C3: on the sample catalog, whose node is named `Customers`,
looking up `CUSTOMERS` finds that node, the lookup agrees across all casings
of the name, and an empty catalog returns not-found. -/
theorem get_table_info_correct_witness :
    get_table_info sampleCatalog "CUSTOMERS" =
      .ok (findTableSpec (sampleNodes.map Prod.snd) "CUSTOMERS") ∧
    findTableSpec (sampleNodes.map Prod.snd) "CUSTOMERS" = some custNode ∧
    get_table_info sampleCatalog "customers" =
      get_table_info sampleCatalog "Customers" ∧
    get_table_info (Json.obj []) "customers" = .ok none :=
  ⟨get_table_info_correct.2.1 [("nodes", .obj sampleNodes)] sampleNodes "CUSTOMERS"
     rfl (by decide), rfl,
   get_table_info_correct.2.2 sampleCatalog "customers" "Customers" (by decide),
   get_table_info_correct.1 (Json.obj []) "customers" rfl⟩

/-- C5: with the `openai` backend and an absent (or empty) API key, `main`
prints the missing-credential error and exits with code 1 before any table
processing; with any non-empty key, the routing step succeeds, i.e. the run
proceeds past the credential check. -/
theorem openai_missing_key_exits :
    (∀ (duck : Bool) (ex : String → ExecOutcome) (args : Args) (j : Json) (ns : List Json),
        args.llm = "openai" → (args.api_key = none ∨ args.api_key = some "") →
        j.truthy = true → get_table_names j = .ok ns →
        main duck ex (.content j) args =
          .ok (1, ["Error: --api-key is required when using OpenAI."])) ∧
    (∀ (k q : String) (ns : List Json), k ≠ "" →
        llm_route "openai" (some k) q ns =
          .ok (["Calling OpenAI with question: " ++ q,
                "Tables in catalog: " ++ (Json.arr ns).pyRepr],
               "I think the relevant tables are customers, orders, and products.",
               ["customers", "orders", "products"])) := by
  constructor
  · intro duck ex args j ns hllm hkey ht hns
    have hk : optTruthy args.api_key = false := by
      rcases hkey with h | h <;> simp [optTruthy, h]
    simp [main, load_catalog, ht, hns, llm_route, hllm, hk]
  · intro k q ns hk
    have hkt : optTruthy (some k) = true := by simp [optTruthy, hk]
    simp [llm_route, hkt]

/-- Witness for C5: a missing key exits with code 1 and only the credential
error printed; the key `sk-1` passes the check. -/
theorem openai_missing_key_exits_witness :
    main false okExec (.content sampleCatalog) openaiArgsNoKey =
      .ok (1, ["Error: --api-key is required when using OpenAI."]) ∧
    llm_route "openai" (some "sk-1") "q" [] =
      .ok (["Calling OpenAI with question: q", "Tables in catalog: []"],
           "I think the relevant tables are customers, orders, and products.",
           ["customers", "orders", "products"]) :=
  ⟨openai_missing_key_exits.1 false okExec openaiArgsNoKey sampleCatalog
     [Json.str "Customers"] rfl (Or.inl rfl) rfl rfl,
   openai_missing_key_exits.2 "sk-1" "q" [] (by decide)⟩

/-- C6: every backend that proceeds past its checks (`openai` with a
non-empty key, `ollama` with any key, `debug` with any key) returns its
hardcoded response string and the fixed related-table list
`[customers, orders, products]`, for every question and every catalog table
list; `debug` and `ollama` never require a key. -/
theorem llm_route_stub :
    (∀ (k q : String) (ns : List Json), k ≠ "" →
        llm_route "openai" (some k) q ns =
          .ok (["Calling OpenAI with question: " ++ q,
                "Tables in catalog: " ++ (Json.arr ns).pyRepr],
               "I think the relevant tables are customers, orders, and products.",
               ["customers", "orders", "products"])) ∧
    (∀ (key : Option String) (q : String) (ns : List Json),
        llm_route "ollama" key q ns =
          .ok (["Calling Ollama with question: " ++ q,
                "Tables in catalog: " ++ (Json.arr ns).pyRepr],
               "Ollama says the relevant tables are:  customers, orders, and products.",
               ["customers", "orders", "products"])) ∧
    (∀ (key : Option String) (q : String) (ns : List Json),
        llm_route "debug" key q ns =
          .ok (["Debug mode:  No LLM call."],
               "Debug response:  The relevant tables are: customers, orders, and products.",
               ["customers", "orders", "products"])) := by
  refine ⟨?_, ?_, ?_⟩
  · intro k q ns hk
    have hkt : optTruthy (some k) = true := by simp [optTruthy, hk]
    simp [llm_route, hkt]
  · intro key q ns; rfl
  · intro key q ns; rfl

/-- Witness for C6: the `openai` branch with the key `key1`. -/
theorem llm_route_stub_witness :
    llm_route "openai" (some "key1") "where" [Json.str "t"] =
      .ok (["Calling OpenAI with question: where", "Tables in catalog: ['t']"],
           "I think the relevant tables are customers, orders, and products.",
           ["customers", "orders", "products"]) :=
  llm_route_stub.1 "key1" "where" [Json.str "t"] (by decide)

/-- C7: when DuckDB is absent, both sampling operations return the fixed
"not available" message for every table name, data path and engine behavior
(they are total, so they never raise), and an end-to-end debug run on the
sample catalog still completes with exit code 0. -/
theorem duckdb_unavailable_safe :
    (∀ (ex : String → ExecOutcome) (t p : String),
        get_sample_data_duckdb false ex t p =
          ("DuckDB is not available. Please install it to use this feature.", [])) ∧
    (∀ (ex : String → ExecOutcome) (t p : String),
        get_table_schema_duckdb false ex t p =
          ("DuckDB is not available. Please install it to use this feature.", [])) ∧
    (∀ ex : String → ExecOutcome,
        main false ex (.content sampleCatalog) debugArgs =
          .ok (0,
            ["Debug mode:  No LLM call.",
             "Debug response:  The relevant tables are: customers, orders, and products.",
             "\nTable: customers",
             "  Description: Customer table",
             "  Columns:",
             "    customer_id: INTEGER - No description.",
             "\n  Sample Data (DuckDB):",
             "DuckDB is not available. Please install it to use this feature.",
             "\n  Table Schema (DuckDB):",
             "DuckDB is not available. Please install it to use this feature.",
             "Table 'orders' not found in catalog.",
             "Table 'products' not found in catalog.",
             "Debug:  Try this query: SELECT c.name, o.order_date FROM customers c JOIN orders o ON c.customer_id = o.customer_id",
             "\nDone."])) :=
  ⟨fun _ _ _ => rfl, fun _ _ _ => rfl, fun _ => rfl⟩

/-- C8 counterexample: when DuckDB is present and query execution raises,
the sampling calls catch the error but never close the session — the trace
records the `connect` with no matching `close`, so release is not guaranteed
on the failure path. -/
theorem sampling_close_skipped_on_failure :
    (get_sample_data_duckdb true failExec "customers" "data").2 = [SessEvent.opened] ∧
    SessEvent.closed ∉ (get_sample_data_duckdb true failExec "customers" "data").2 ∧
    (get_table_schema_duckdb true failExec "customers" "data").2 = [SessEvent.opened] ∧
    SessEvent.closed ∉ (get_table_schema_duckdb true failExec "customers" "data").2 := by
  refine ⟨rfl, ?_, rfl, ?_⟩ <;> decide

/-- C8 (amended): each sampling call acquires a fresh transient session of
its own (no reuse or pooling across calls); on successful execution the
session is opened then closed, but when execution raises the session is
opened and never closed — the `except` handler returns the error text
without releasing it. -/
theorem sampling_session_lifecycle :
    ∀ (ex : String → ExecOutcome) (t p q s e : String),
      (get_sample_data_duckdb false ex t p).2 = [] ∧
      (get_table_schema_duckdb false ex t p).2 = [] ∧
      (generate_duckdb_query true t p = some q →
        (ex q = .ok s →
          (get_sample_data_duckdb true ex t p).2 = [SessEvent.opened, SessEvent.closed]) ∧
        (ex q = .raise e →
          (get_sample_data_duckdb true ex t p).2 = [SessEvent.opened]) ∧
        (ex ("DESCRIBE " ++ q) = .ok s →
          (get_table_schema_duckdb true ex t p).2 = [SessEvent.opened, SessEvent.closed]) ∧
        (ex ("DESCRIBE " ++ q) = .raise e →
          (get_table_schema_duckdb true ex t p).2 = [SessEvent.opened])) := by
  intro ex t p q s e
  refine ⟨rfl, rfl, fun hq => ⟨?_, ?_, ?_, ?_⟩⟩ <;> intro h <;>
    simp [get_sample_data_duckdb, get_table_schema_duckdb, hq, h]

/-- Witness for C8 (amended): a succeeding engine gives the open-close trace,
a raising engine gives the open-only trace, and an absent engine opens no
session at all. -/
theorem sampling_session_lifecycle_witness :
    (get_sample_data_duckdb true okExec "orders" "data").2 =
      [SessEvent.opened, SessEvent.closed] ∧
    (get_table_schema_duckdb true okExec "orders" "data").2 =
      [SessEvent.opened, SessEvent.closed] ∧
    (get_sample_data_duckdb true failExec "orders" "data").2 = [SessEvent.opened] ∧
    (get_sample_data_duckdb false okExec "orders" "data").2 = [] :=
  ⟨((sampling_session_lifecycle okExec "orders" "data"
      "SELECT * FROM read_parquet('orders/*.parquet') LIMIT 5" "   col\n0    1" "x").2.2
      rfl).1 rfl,
   ((sampling_session_lifecycle okExec "orders" "data"
      "SELECT * FROM read_parquet('orders/*.parquet') LIMIT 5" "   col\n0    1" "x").2.2
      rfl).2.2.1 rfl,
   ((sampling_session_lifecycle failExec "orders" "data"
      "SELECT * FROM read_parquet('orders/*.parquet') LIMIT 5" "s" "IO Error").2.2
      rfl).2.1 rfl,
   (sampling_session_lifecycle okExec "orders" "data" "q" "s" "e").1⟩

/-- C10: `get_table_info` and `get_table_names` are total only on catalogs
whose `nodes` mapping is present with every entry carrying `name` and
`resource_type`: on a truthy document lacking `nodes`, or on a node missing
the key they read, both raise `KeyError` instead of returning not-found or
the empty list, and the error escapes `main` uncaught. -/
theorem lookup_functions_raise_keyerror :
    (∀ (kvs : List (String × Json)) (q : String), kvs ≠ [] →
        kvs.lookup "nodes" = none →
        get_table_info (.obj kvs) q = .error (.keyError "nodes")) ∧
    (∀ kvs : List (String × Json), kvs ≠ [] →
        kvs.lookup "nodes" = none →
        get_table_names (.obj kvs) = .error (.keyError "nodes")) ∧
    (∀ (kvs : List (String × Json)) (nkey : String) (node : Json)
        (rest : List (String × Json)) (q : String),
        (Json.obj kvs).getItem "nodes" = .ok (.obj ((nkey, node) :: rest)) →
        node.getItem "name" = .error (.keyError "name") →
        get_table_info (.obj kvs) q = .error (.keyError "name")) ∧
    (∀ (kvs : List (String × Json)) (nkey : String) (node : Json)
        (rest : List (String × Json)),
        (Json.obj kvs).getItem "nodes" = .ok (.obj ((nkey, node) :: rest)) →
        node.getItem "resource_type" = .error (.keyError "resource_type") →
        get_table_names (.obj kvs) = .error (.keyError "resource_type")) ∧
    (∀ (duck : Bool) (ex : String → ExecOutcome) (args : Args) (j : Json) (e : PyError),
        j.truthy = true → get_table_names j = .error e →
        main duck ex (.content j) args = .error e) := by
  refine ⟨?_, ?_, ?_, ?_, ?_⟩
  · intro kvs q hne hl
    have ht : (Json.obj kvs).truthy = true := by
      cases kvs with
      | nil => exact absurd rfl hne
      | cons a l => rfl
    simp [get_table_info, ht, Json.getItem, hl]
  · intro kvs hne hl
    have ht : (Json.obj kvs).truthy = true := by
      cases kvs with
      | nil => exact absurd rfl hne
      | cons a l => rfl
    simp [get_table_names, ht, Json.getItem, hl]
  · intro kvs nkey node rest q h hn
    have ht := truthy_of_lookup (getItem_obj_ok h)
    simp [get_table_info, ht, h, Json.values, find_node, hn]
  · intro kvs nkey node rest h hn
    have ht := truthy_of_lookup (getItem_obj_ok h)
    simp [get_table_names, ht, h, Json.values, collect_table_names, hn]
  · intro duck ex args j e ht hns
    simp [main, load_catalog, ht, hns]

/-- Witness for C10: concrete malformed catalogs that raise each `KeyError`,
the last one escaping `main`. -/
theorem lookup_functions_raise_keyerror_witness :
    get_table_info noNodesCatalog "customers" = .error (.keyError "nodes") ∧
    get_table_names noNodesCatalog = .error (.keyError "nodes") ∧
    get_table_info namelessNodeCatalog "t" = .error (.keyError "name") ∧
    get_table_names untypedNodeCatalog = .error (.keyError "resource_type") ∧
    main false okExec (.content untypedNodeCatalog) debugArgs =
      .error (.keyError "resource_type") :=
  ⟨lookup_functions_raise_keyerror.1 [("metadata", .str "dbt")] "customers"
     (List.cons_ne_nil _ _) rfl,
   lookup_functions_raise_keyerror.2.1 [("metadata", .str "dbt")]
     (List.cons_ne_nil _ _) rfl,
   lookup_functions_raise_keyerror.2.2.1 [("nodes", .obj [("n1", .obj [("resource_type", .str "model")])])]
     "n1" (.obj [("resource_type", .str "model")]) [] "t" rfl rfl,
   lookup_functions_raise_keyerror.2.2.2.1 [("nodes", .obj [("n1", .obj [("name", .str "t")])])]
     "n1" (.obj [("name", .str "t")]) [] rfl rfl,
   lookup_functions_raise_keyerror.2.2.2.2 false okExec debugArgs untypedNodeCatalog
     (.keyError "resource_type") rfl rfl⟩

end DbtQueryTool
